import Mathlib

/-!
Shallow embedding of the `baseQt` stores (src/ui/item.py, src/ui/model.py).

Conventions used throughout:
* Nodes are identified by natural numbers (Python object identity).
* Python exceptions are modelled explicitly: operations that can raise return
  an `Option PyErr` alongside the state as mutated up to the raise point
  (Python exceptions leave earlier side effects in place).
* Signed Python positions are `Int`; Python `list.insert` clamping semantics
  are modelled by `pyInsert`.
-/

/-- Python exception kinds that the modelled code can raise. -/
inductive PyErr where
  | valueError
  | indexError
  | recursionError
deriving DecidableEq, Repr

/-- Python `list.insert(i, x)`: negative indices count from the end and the
effective index is clamped into `[0, length]`. -/
def pyInsert (l : List α) (i : Int) (x : α) : List α :=
  let n := l.length
  let j : Nat := if i < 0 then n - (-i).toNat else min i.toNat n
  l.take j ++ x :: l.drop j

/-- Python `list.remove(x)`: drop the first occurrence, `none` models the
`ValueError` raised when `x` is absent. -/
def listRemove : List Nat → Nat → Option (List Nat)
  | [], _ => none
  | y :: ys, x => if y = x then some ys else (listRemove ys x).map (fun l => y :: l)

/-- Python `list.index(x)`: position of the first occurrence, `none` models the
`ValueError` raised when `x` is absent. -/
def listIndex : List Nat → Nat → Option Nat
  | [], _ => none
  | y :: ys, x => if y = x then some 0 else (listIndex ys x).map (fun n => n + 1)

/-- Bitwise OR on naturals, by structural recursion on a fuel bound so that the
kernel can evaluate it. -/
def natOrAux : Nat → Nat → Nat → Nat
  | 0, _, _ => 0
  | f + 1, m, n =>
    if m = 0 then n
    else if n = 0 then m
    else 2 * natOrAux f (m / 2) (n / 2) + (if m % 2 = 1 ∨ n % 2 = 1 then 1 else 0)

def natOr (m n : Nat) : Nat := natOrAux (m + n + 1) m n

/-- Bitwise AND on naturals (fuelled, kernel-evaluable). -/
def natAndAux : Nat → Nat → Nat → Nat
  | 0, _, _ => 0
  | f + 1, m, n =>
    if m = 0 ∨ n = 0 then 0
    else 2 * natAndAux f (m / 2) (n / 2) + (if m % 2 = 1 ∧ n % 2 = 1 then 1 else 0)

def natAnd (m n : Nat) : Nat := natAndAux (m + n + 1) m n

/-- Bitwise `m AND NOT n` on naturals (fuelled, kernel-evaluable). -/
def natDiffAux : Nat → Nat → Nat → Nat
  | 0, _, _ => 0
  | f + 1, m, n =>
    if m = 0 then 0
    else 2 * natDiffAux f (m / 2) (n / 2) + (if m % 2 = 1 ∧ ¬ n % 2 = 1 then 1 else 0)

def natDiff (m n : Nat) : Nat := natDiffAux (m + n + 1) m n

/-- Python `a | b` on arbitrary-precision ints: two's-complement bitwise OR,
`negSucc m` standing for the complement of `m`. -/
def intOr : Int → Int → Int
  | .ofNat m, .ofNat n => .ofNat (natOr m n)
  | .negSucc m, .ofNat n => .negSucc (natDiff m n)
  | .ofNat m, .negSucc n => .negSucc (natDiff n m)
  | .negSucc m, .negSucc n => .negSucc (natAnd m n)

/-- `model._get_abs_pos`: `pos if pos >= 0 else len_ + pos + 1`. -/
def get_abs_pos (pos : Int) (len_ : Int) : Int :=
  if pos ≥ 0 then pos else len_ + pos + 1

/-- State of `ListModel` (src/ui/model.py): the private `__items` list. -/
structure ListModel where
  items : List Nat
deriving DecidableEq, Repr

/-- `ListModel.rowCount`. -/
def ListModel.rowCount (m : ListModel) : Nat := m.items.length

/-- `ListModel.insertRow(row, item=item)`: bound check `0 <= row <= rowCount`,
then splice (the `item` argument is always a real node in the modelled calls,
so the `if item:` guard is taken). -/
def ListModel.insertRow (m : ListModel) (row : Int) (item : Nat) : Bool × ListModel :=
  if 0 ≤ row ∧ row ≤ (m.rowCount : Int) then
    (true, ⟨pyInsert m.items row item⟩)
  else
    (false, m)

/-- `ListModel.insert_item(item, pos)`: normalize, then `insertRow`. -/
def ListModel.insert_item (m : ListModel) (item : Nat) (pos : Int) : Bool × ListModel :=
  m.insertRow (get_abs_pos pos (m.rowCount : Int)) item

/-- `ListModel.moveRow(src_row, dst_row)`: the source's bound check is
`0 <= src_row | dst_row < self.rowCount()` with Python's bitwise OR; when it
passes, `pop(src_row)` then `insert(dst_row, item)`.  When the check passes
both rows are nonnegative and below `rowCount` (OR of naturals dominates each
argument), so the pop index is in range and `getD`/`eraseIdx` coincide with
Python `pop`. -/
def ListModel.moveRow (m : ListModel) (src_row dst_row : Int) : Bool × ListModel :=
  let o := intOr src_row dst_row
  if 0 ≤ o ∧ o < (m.rowCount : Int) then
    let item := m.items.getD src_row.toNat 0
    let rest := m.items.eraseIdx src_row.toNat
    (true, ⟨pyInsert rest dst_row item⟩)
  else
    (false, m)

/-- `ListModel.move_item(item, pos)`: `__items.index(item)` (may raise
`ValueError`), normalize `pos`, then `moveRow`. -/
def ListModel.move_item (m : ListModel) (item : Nat) (pos : Int) :
    Option PyErr × Bool × ListModel :=
  match listIndex m.items item with
  | none => (some .valueError, false, m)
  | some item_pos =>
    let p := get_abs_pos pos (m.rowCount : Int)
    let r := m.moveRow (item_pos : Int) p
    (none, r.1, r.2)

/-- Sorted insert, descending by key, stable (Python `sorted` with
`reverse=True` keeps equal keys in encounter order). -/
def insertDesc (e : Nat × Nat) : List (Nat × Nat) → List (Nat × Nat)
  | [] => [e]
  | f :: fs => if e.2 ≤ f.2 then f :: insertDesc e fs else e :: f :: fs

/-- Stable sort, descending by key. -/
def sortDesc : List (Nat × Nat) → List (Nat × Nat)
  | [] => []
  | e :: es => insertDesc e (sortDesc es)

/-- The loop body of `ListModel.move_items`: for each item in sorted order,
re-look up its position (may raise `ValueError`) and call
`moveRow(item_pos, pos + i)`, ignoring the boolean result. -/
def moveItemsLoop (ap : Int) : List Nat → Nat → ListModel → Option PyErr × ListModel
  | [], _, m => (none, m)
  | it :: rest, i, m =>
    match listIndex m.items it with
    | none => (some .valueError, m)
    | some item_pos => moveItemsLoop ap rest (i + 1) (m.moveRow (item_pos : Int) (ap + i)).2

/-- `ListModel.move_items(items, pos)`: normalize once against the current
length, sort the batch by current position descending (`sorted` computes every
key first and raises `ValueError` if an item is absent), then move one by one
to `pos + i`. -/
def ListModel.move_items (m : ListModel) (items : List Nat) (pos : Int) :
    Option PyErr × ListModel :=
  let ap := get_abs_pos pos (m.rowCount : Int)
  match items.mapM (fun it => (listIndex m.items it).map (fun k => (it, k))) with
  | none => (some .valueError, m)
  | some keyed => moveItemsLoop ap ((sortDesc keyed).map (fun e => e.1)) 0 m

/-- Position handles handed to the view layer: `createIndex(row, column, node)`
or the invalid `QModelIndex()`. -/
inductive MIdx where
  | invalid
  | valid (row : Nat) (col : Nat) (node : Nat)
deriving DecidableEq, Repr

/-- `ListModel.index(row, column)`: the source guards with
`0 <= row <= self.rowCount()` (inclusive upper bound) and then evaluates
`self.__items[row]`, which raises `IndexError` when `row = rowCount`. -/
def ListModel.index (m : ListModel) (row col : Int) : Option PyErr × MIdx :=
  if 0 ≤ row ∧ row ≤ (m.rowCount : Int) then
    match m.items[row.toNat]? with
    | some node => (none, .valid row.toNat col.toNat node)
    | none => (some .indexError, .invalid)
  else
    (none, .invalid)

/-- State of `TableModel` (src/ui/model.py): flat `__items` plus the fixed
column count `COL_COUNT`. -/
structure TableModel where
  items : List Nat
  COL_COUNT : Nat
deriving DecidableEq, Repr

/-- `TableModel.columnCount`. -/
def TableModel.columnCount (t : TableModel) : Nat := t.COL_COUNT

/-- `TableModel.rowCount = math.ceil(len(items) / columnCount)` (for a
positive column count, as in every modelled scenario). -/
def TableModel.rowCount (t : TableModel) : Nat :=
  (t.items.length + t.COL_COUNT - 1) / t.COL_COUNT

/-- `TableModel.insertRow(row, item=item)`: bound check
`0 <= row <= rowCount`, then `insert(row * columnCount, item)`. -/
def TableModel.insertRow (t : TableModel) (row : Int) (item : Nat) : Bool × TableModel :=
  if 0 ≤ row ∧ row ≤ (t.rowCount : Int) then
    (true, { t with items := pyInsert t.items (row * (t.columnCount : Int)) item })
  else
    (false, t)

/-- `TableModel.insert_item(item, pos)`: normalize `pos` against `rowCount()`,
compute `column = rowCount() % columnCount()`; when the remainder is zero call
`insertRow(rowCount() - 1)` (whose boolean result is discarded), otherwise
splice directly into the flat list at `pos`.  The Python method returns
`None`, so the model returns only the new state. -/
def TableModel.insert_item (t : TableModel) (item : Nat) (pos : Int) : TableModel :=
  let p := get_abs_pos pos (t.rowCount : Int)
  let column := t.rowCount % t.columnCount
  if column = 0 then
    (t.insertRow ((t.rowCount : Int) - 1) item).2
  else
    { t with items := pyInsert t.items p item }

/-- Arena for `TreeItem` objects (src/ui/item.py): node `i` has private fields
`__parent = parent.getD i none` and `__children = children.getD i []`.  The
arena side-steps the cyclic object references of the source while keeping
every operation executable. -/
structure Arena where
  parent : List (Option Nat)
  children : List (List Nat)
deriving DecidableEq, Repr

/-- The `__parent` field of node `i`. -/
def Arena.parentOf (a : Arena) (i : Nat) : Option Nat := a.parent.getD i none

/-- The `__children` field of node `i`. -/
def Arena.childrenOf (a : Arena) (i : Nat) : List Nat := a.children.getD i []

/-- `TreeItem.child_count`. -/
def Arena.child_count (a : Arena) (i : Nat) : Nat := (a.childrenOf i).length

mutual

/-- `TreeItem.remove_child(child)`: `self.__children.remove(child)` (raising
`ValueError` when absent), then `child.parent = None`, which re-enters the
`parent` setter.  The fuel argument bounds the mutual recursion with
`set_parent`; it is never exhausted in any run where the state is finite. -/
def remove_child : Nat → Arena → Nat → Nat → Option PyErr × Arena
  | 0, a, _, _ => (some .recursionError, a)
  | fuel + 1, a, self, child =>
    match listRemove (a.childrenOf self) child with
    | none => (some .valueError, a)
    | some l =>
      let a1 : Arena := { a with children := a.children.set self l }
      set_parent fuel a1 child none

/-- The `TreeItem.parent` setter: `if self.__parent is not None:
self.__parent.remove_child(self)`, then `self.__parent = parent`.  When the
removal raises, the assignment never happens and the exception propagates with
the state as mutated so far. -/
def set_parent : Nat → Arena → Nat → Option Nat → Option PyErr × Arena
  | 0, a, _, _ => (some .recursionError, a)
  | fuel + 1, a, self, newParent =>
    match a.parentOf self with
    | some oldParent =>
      match remove_child fuel a oldParent self with
      | (some e, a1) => (some e, a1)
      | (none, a1) => (none, { a1 with parent := a1.parent.set self newParent })
    | none => (none, { a with parent := a.parent.set self newParent })

end

/-- `TreeItem.insert_child(children, pos=-1)`:
`self.__children.insert(pos, children)` then `children.parent = self`. -/
def insert_child (fuel : Nat) (a : Arena) (self child : Nat) (pos : Int) :
    Option PyErr × Arena :=
  let a1 : Arena :=
    { a with children := a.children.set self (pyInsert (a.childrenOf self) pos child) }
  set_parent fuel a1 child (some self)

/-- State of `TreeModel` (src/ui/model.py): the arena of `TreeItem`s plus the
identity of `root_item`. -/
structure TreeModel where
  arena : Arena
  root : Nat
deriving DecidableEq, Repr

/-- `TreeModel.rowCount` of the node an index resolves to: its child count. -/
def TreeModel.rowCount (tm : TreeModel) (i : Nat) : Nat := tm.arena.child_count i

/-- The sequence of indices produced by
`TreeModel.iter_indices(recursive=True)` starting below node `p`: pre-order
entries `(node, parent_item, row)`, each direct child followed by its own
subtree.  Fuelled because an arena could in principle contain a cycle. -/
def preorder : Nat → Arena → Nat → List (Nat × Nat × Nat)
  | 0, _, _ => []
  | fuel + 1, a, p =>
    (a.childrenOf p).enum.flatMap (fun e => (e.2, p, e.1) :: preorder fuel a e.2)

/-- `TreeModel.insertRow(row, parent, item)`: resolve the parent item (the
invalid index resolves to `root_item`; here the caller passes the resolved
item), bound check `0 <= row <= child_count`, then
`parent_item.insert_child(item, row)`.  Returns the boolean result of the
source together with any exception escaping `insert_child`. -/
def TreeModel.insertRow (fuel : Nat) (tm : TreeModel) (row : Int)
    (parentItem : Nat) (item : Nat) : Option PyErr × Bool × TreeModel :=
  if 0 ≤ row ∧ row ≤ (tm.arena.child_count parentItem : Int) then
    let r := insert_child fuel tm.arena parentItem item row
    (r.1, r.1.isNone, { tm with arena := r.2 })
  else
    (none, false, tm)

/-- `TreeModel.insert_item(item, parent_item=None, pos=-1)`: a `None` parent
becomes `root_item`; otherwise the parent's index is searched in
`iter_indices(recursive=True)` and `ValueError` is raised when absent; then
`pos` is normalized against the parent's child count and `insertRow` runs. -/
def TreeModel.insert_item (fuel : Nat) (tm : TreeModel) (item : Nat)
    (parentItem? : Option Nat) (pos : Int) : Option PyErr × TreeModel :=
  match parentItem? with
  | none =>
    let p := tm.root
    let ap := get_abs_pos pos (tm.arena.child_count p : Int)
    let r := tm.insertRow fuel ap p item
    (r.1, r.2.2)
  | some p =>
    if (preorder fuel tm.arena tm.root).any (fun e => e.1 == p) then
      let ap := get_abs_pos pos (tm.arena.child_count p : Int)
      let r := tm.insertRow fuel ap p item
      (r.1, r.2.2)
    else
      (some .valueError, tm)

/-- `TreeModel.removeRow(row, parent)`: resolve the parent item, bound check
`0 <= row < child_count`, then `parent_item.remove_child(parent_item.child(row))`.
Under the bound check `child(row)` is in range, so the `getElem?` fallback is
unreachable. -/
def TreeModel.removeRow (fuel : Nat) (tm : TreeModel) (row : Int)
    (parentItem : Nat) : Option PyErr × Bool × TreeModel :=
  if 0 ≤ row ∧ row < (tm.arena.child_count parentItem : Int) then
    match (tm.arena.childrenOf parentItem)[row.toNat]? with
    | some c =>
      let r := remove_child fuel tm.arena parentItem c
      (r.1, r.1.isNone, { tm with arena := r.2 })
    | none => (some .indexError, false, tm)
  else
    (none, false, tm)

/-- `TreeModel.delete_item(item)`: scan `iter_indices(recursive=True)` for the
first index whose node is `item` and call `removeRow(idx.row(), idx.parent())`;
when the item is absent the loop just ends with no action. -/
def TreeModel.delete_item (fuel : Nat) (tm : TreeModel) (item : Nat) :
    Option PyErr × TreeModel :=
  match (preorder fuel tm.arena tm.root).find? (fun e => e.1 == item) with
  | some e =>
    let r := tm.removeRow fuel (e.2.2 : Int) e.2.1
    (r.1, r.2.2)
  | none => (none, tm)

/-- `TreeModel.moveRow(src_row, dst_row, src_parent, dst_parent)`: resolve both
parents, bound check `0 <= src_row < src.child_count` and
`0 <= dst_row < dst.child_count`, then `item = src_item.child(src_row)` and
`dst_item.insert_child(item, dst_row)`. -/
def TreeModel.moveRow (fuel : Nat) (tm : TreeModel) (src_row dst_row : Int)
    (srcParent dstParent : Nat) : Option PyErr × Bool × TreeModel :=
  if 0 ≤ src_row ∧ src_row < (tm.arena.child_count srcParent : Int) then
    if 0 ≤ dst_row ∧ dst_row < (tm.arena.child_count dstParent : Int) then
      match (tm.arena.childrenOf srcParent)[src_row.toNat]? with
      | some it =>
        let r := insert_child fuel tm.arena dstParent it dst_row
        (r.1, r.1.isNone, { tm with arena := r.2 })
      | none => (some .indexError, false, tm)
    else (none, false, tm)
  else (none, false, tm)

/-- The scan loop of `TreeModel.move_item`: walk the pre-order indices keeping
the last value assigned to `item_index` and `dst_parent_index` (note the
source's `elif`: an entry equal to both only updates `item_index`); break as
soon as both are set, returning `(item entry, dst entry, loop variable at
break)`; `none` models the `for`-`else` `ValueError`. -/
def scanIndices (item dst : Nat) :
    List (Nat × Nat × Nat) → Option (Nat × Nat × Nat) → Option (Nat × Nat × Nat) →
    Option ((Nat × Nat × Nat) × (Nat × Nat × Nat) × (Nat × Nat × Nat))
  | [], _, _ => none
  | e :: rest, ii, di =>
    let ii2 := if e.1 = item then some e else ii
    let di2 := if e.1 = item then di else if e.1 = dst then some e else di
    match ii2, di2 with
    | some a, some b => some (a, b, e)
    | some a, none => scanIndices item dst rest (some a) none
    | none, some b => scanIndices item dst rest none (some b)
    | none, none => scanIndices item dst rest none none

/-- `TreeModel.move_item(item, dst_parent_item=None, pos=-1)`: a `None`
destination becomes `root_item`; one combined scan looks for both the item's
index and the destination's index and raises `ValueError` if the loop finishes
without finding both; then `pos` is normalized against the destination's child
count and `moveRow(item_index.row(), pos, index.parent(), dst_parent_index)`
runs, where `index` is the loop variable at the break. -/
def TreeModel.move_item (fuel : Nat) (tm : TreeModel) (item : Nat)
    (dstParent? : Option Nat) (pos : Int) : Option PyErr × TreeModel :=
  let dst := dstParent?.getD tm.root
  match scanIndices item dst (preorder fuel tm.arena tm.root) none none with
  | none => (some .valueError, tm)
  | some (ie, de, le) =>
    let ap := get_abs_pos pos (tm.arena.child_count dst : Int)
    let r := tm.moveRow fuel (ie.2.2 : Int) ap le.2.1 de.1
    (r.1, r.2.2)

/-! ## Helper lemmas -/

theorem getD_set_self {α : Type} (l : List α) (i : Nat) (x d : α) (h : i < l.length) :
    (l.set i x).getD i d = x := by
  simp [List.getD_eq_getElem?_getD, List.getElem?_set_eq_of_lt x h]

/-! ## Claims -/

/-- C2 (confirmed): position normalization returns `pos` itself when
`pos ≥ 0` and `L + pos + 1` when `pos < 0`; in particular `pos = -1`
normalizes to `L` for every length `L`. -/
theorem get_abs_pos_spec (pos L : Int) :
    (0 ≤ pos → get_abs_pos pos L = pos) ∧
    (pos < 0 → get_abs_pos pos L = L + pos + 1) ∧
    get_abs_pos (-1) L = L := by
  unfold get_abs_pos
  refine ⟨fun h => by rw [if_pos h], fun h => by rw [if_neg (by omega)], ?_⟩
  rw [if_neg (by omega)]; ring

/-- Witness for C2 at concrete inputs. -/
theorem get_abs_pos_spec_witness :
    get_abs_pos 4 10 = 4 ∧ get_abs_pos (-2) 10 = 9 ∧ get_abs_pos (-1) 10 = 10 := by
  refine ⟨(get_abs_pos_spec 4 10).1 (by decide), ?_, (get_abs_pos_spec (-1) 10).2.2⟩
  have h := (get_abs_pos_spec (-2) 10).2.1 (by decide)
  omega

/-- C3 (confirmed): `ListModel.insert_item` returns `false` exactly when the
normalized position is outside `[0, length]`, in which case the stored
sequence is unchanged; when the normalized position is inside `[0, length]`
the node is spliced in at that position and the call returns `true`. -/
theorem insert_item_spec (m : ListModel) (item : Nat) (pos : Int) :
    (m.insert_item item pos).1 =
      decide (0 ≤ get_abs_pos pos (m.rowCount : Int) ∧
              get_abs_pos pos (m.rowCount : Int) ≤ (m.rowCount : Int)) ∧
    (m.insert_item item pos).2.items =
      (if 0 ≤ get_abs_pos pos (m.rowCount : Int) ∧
          get_abs_pos pos (m.rowCount : Int) ≤ (m.rowCount : Int)
       then m.items.take (get_abs_pos pos (m.rowCount : Int)).toNat ++
            item :: m.items.drop (get_abs_pos pos (m.rowCount : Int)).toNat
       else m.items) := by
  unfold ListModel.insert_item ListModel.insertRow
  set p := get_abs_pos pos (m.rowCount : Int) with hp
  by_cases h : 0 ≤ p ∧ p ≤ (m.rowCount : Int)
  · have hneg : ¬ p < 0 := by omega
    have hlen : p.toNat ≤ m.items.length := by
      have h2 := h.2
      simp only [ListModel.rowCount] at h2
      omega
    simp [h, pyInsert, hneg, Nat.min_eq_left hlen]
  · simp [h]

/-- C10 (confirmed, implicit claim): for a `TreeItem` with at least one
existing child, `insert_child` at the default `pos = -1` places the new child
at position `child_count - 1` (immediately before the last child); only for a
childless item does the default insert make it the sole child.  The new child
is assumed fresh (its `parent` field is `None`), as it is at every call site
of the default insert. -/
theorem insert_child_default_pos (fuel : Nat) (a : Arena) (p x : Nat)
    (hf : 0 < fuel) (hp : p < a.children.length) (hx : x < a.parent.length)
    (hfresh : a.parentOf x = none) :
    (insert_child fuel a p x (-1)).1 = none ∧
    (insert_child fuel a p x (-1)).2.childrenOf p =
      (a.childrenOf p).take ((a.childrenOf p).length - 1) ++
        x :: (a.childrenOf p).drop ((a.childrenOf p).length - 1) ∧
    (a.childrenOf p = [] → (insert_child fuel a p x (-1)).2.childrenOf p = [x]) ∧
    (insert_child fuel a p x (-1)).2.parentOf x = some p := by
  obtain ⟨f, rfl⟩ : ∃ f, fuel = f + 1 := ⟨fuel - 1, by omega⟩
  have hins : pyInsert (a.childrenOf p) (-1) x =
      (a.childrenOf p).take ((a.childrenOf p).length - 1) ++
        x :: (a.childrenOf p).drop ((a.childrenOf p).length - 1) := by
    simp [pyInsert]
  have hpar :
      ({ a with children := a.children.set p (pyInsert (a.childrenOf p) (-1) x) }
        : Arena).parentOf x = none := hfresh
  unfold insert_child set_parent
  rw [hpar]
  refine ⟨rfl, ?_, ?_, ?_⟩
  · simpa [Arena.childrenOf] using getD_set_self a.children p _ [] hp
  · intro hnil
    simp only [Arena.childrenOf]
    rw [getD_set_self a.children p _ [] hp, ← Arena.childrenOf, hins, hnil]
    simp
  · simpa [Arena.parentOf] using getD_set_self a.parent x (some p) none hx

/-- Witness for C10: a parent with one child `1` receives fresh node `2` at the
default position; the result is `[2, 1]` (position `child_count - 1 = 0`). -/
theorem insert_child_default_pos_witness :
    (insert_child 1 ⟨[none, none, none], [[1], [], []]⟩ 0 2 (-1)).1 = none ∧
    (insert_child 1 ⟨[none, none, none], [[1], [], []]⟩ 0 2 (-1)).2.childrenOf 0 =
      ([1] : List Nat).take 0 ++ 2 :: ([1] : List Nat).drop 0 ∧
    ((⟨[none, none, none], [[1], [], []]⟩ : Arena).childrenOf 0 = [] →
      (insert_child 1 ⟨[none, none, none], [[1], [], []]⟩ 0 2 (-1)).2.childrenOf 0 = [2]) ∧
    (insert_child 1 ⟨[none, none, none], [[1], [], []]⟩ 0 2 (-1)).2.parentOf 2 = some 0 :=
  insert_child_default_pos 1 ⟨[none, none, none], [[1], [], []]⟩ 0 2
    (by decide) (by decide) (by decide) (by decide)

/-- C1 (code bug): deleting the sole child `1` of root `0` — the code path of
every `TreeStore` delete — raises `ValueError` from the re-entrant
`remove_child`/`parent`-setter pair and leaves a state where node `1` still
has `parent = 0` but is no longer in `0`'s children, violating the claimed
parent/children iff-invariant. -/
theorem remove_child_breaks_parent_invariant :
    remove_child 5 ⟨[none, some 0], [[1], []]⟩ 0 1 =
      (some PyErr.valueError, ⟨[none, some 0], [[], []]⟩) ∧
    (remove_child 5 ⟨[none, some 0], [[1], []]⟩ 0 1).2.parentOf 1 = some 0 ∧
    1 ∉ (remove_child 5 ⟨[none, some 0], [[1], []]⟩ 0 1).2.childrenOf 0 := by
  decide

/-- C4 (code bug): inserting `A=1, B=2, C=3` at `pos = -1` into an empty
`ListModel` does give `[A, B, C]`, but the subsequent `move(A, pos = -1)`
returns `False` and leaves the sequence `[A, B, C]` instead of producing
`[B, C, A]`: `moveRow`'s bound check `0 <= src_row | dst_row < rowCount`
rejects the normalized destination `3 = length`. -/
theorem move_to_append_fails :
    (((ListModel.insert_item ⟨[]⟩ 1 (-1)).2.insert_item 2 (-1)).2.insert_item 3 (-1)).2 =
      ⟨[1, 2, 3]⟩ ∧
    ListModel.move_item ⟨[1, 2, 3]⟩ 1 (-1) = (none, false, ⟨[1, 2, 3]⟩) := by
  decide

/-- C5 (code bug): on the store `[X, Y, A, B] = [0, 1, 2, 3]`,
`move_items([A, B], pos = 0)` produces `[B, A, X, Y] = [3, 2, 0, 1]`: the
descending iteration inserting at `pos + i` reverses the relative order of
the moved nodes (`A` before `B` becomes `B` before `A`). -/
theorem move_items_reverses_order :
    ListModel.move_items ⟨[0, 1, 2, 3]⟩ [2, 3] 0 = (none, ⟨[3, 2, 0, 1]⟩) ∧
    listIndex [0, 1, 2, 3] 2 = some 2 ∧ listIndex [0, 1, 2, 3] 3 = some 3 ∧
    listIndex [3, 2, 0, 1] 3 = some 0 ∧ listIndex [3, 2, 0, 1] 2 = some 1 := by
  decide

/-- C6 (code bug): with root `0`, child `X = 1` under the root and `Y = 2`
under `X`, `delete_item(X)` raises `ValueError` (re-entrant `remove_child`)
instead of completing the cascade: afterwards `rowCount(root) = 0` holds
incidentally, but `X` still has `parent = root` and still owns `Y`
(`X.children = [Y]`, `Y.parent = X`) — the subtree's ownership is not
released. -/
theorem delete_cascade_raises :
    (TreeModel.insert_item 10 ⟨⟨[none, none, none], [[], [], []]⟩, 0⟩ 1 none (-1)).2 =
      ⟨⟨[none, some 0, none], [[1], [], []]⟩, 0⟩ ∧
    (TreeModel.insert_item 10 ⟨⟨[none, some 0, none], [[1], [], []]⟩, 0⟩ 2 (some 1) (-1)).2 =
      ⟨⟨[none, some 0, some 1], [[1], [2], []]⟩, 0⟩ ∧
    TreeModel.delete_item 10 ⟨⟨[none, some 0, some 1], [[1], [2], []]⟩, 0⟩ 1 =
      (some PyErr.valueError, ⟨⟨[none, some 0, some 1], [[], [2], []]⟩, 0⟩) ∧
    (TreeModel.delete_item 10 ⟨⟨[none, some 0, some 1], [[1], [2], []]⟩, 0⟩ 1).2.rowCount 0
      = 0 ∧
    (TreeModel.delete_item 10 ⟨⟨[none, some 0, some 1], [[1], [2], []]⟩, 0⟩ 1).2.arena.parentOf 1
      = some 0 ∧
    (TreeModel.delete_item 10 ⟨⟨[none, some 0, some 1], [[1], [2], []]⟩, 0⟩ 1).2.arena.childrenOf 1
      = [2] := by
  decide

/-- C7 (code bug): with root `0` and child `X = 1`, `move_item(X)` with the
destination parent unspecified raises `ValueError` without mutating anything:
the combined scan runs over `iter_indices(recursive=True)`, which never
yields the root itself, so the destination index is never found and the
`for`-`else` raises. -/
theorem move_to_root_raises :
    TreeModel.move_item 10 ⟨⟨[none, some 0], [[1], []]⟩, 0⟩ 1 none (-1) =
      (some PyErr.valueError, ⟨⟨[none, some 0], [[1], []]⟩, 0⟩) := by
  decide

/-- C8 (code bug): on a `TableModel` with `COL_COUNT = 3`, four successive
`insert_item`s at `pos = -1` starting from the empty store each compute
`column = rowCount() % 3 = 0` and call `insertRow(rowCount() - 1) =
insertRow(-1)`, which fails its bound check, so nothing is ever inserted and
`rowCount` stays `0, 0, 0, 0` instead of the claimed `1, 1, 1, 2`. -/
theorem table_insert_sequence_stalls :
    ((⟨[], 3⟩ : TableModel).insert_item 1 (-1)).rowCount = 0 ∧
    (((⟨[], 3⟩ : TableModel).insert_item 1 (-1)).insert_item 2 (-1)).rowCount = 0 ∧
    ((((⟨[], 3⟩ : TableModel).insert_item 1 (-1)).insert_item 2 (-1)).insert_item 3
      (-1)).rowCount = 0 ∧
    (((((⟨[], 3⟩ : TableModel).insert_item 1 (-1)).insert_item 2 (-1)).insert_item 3
      (-1)).insert_item 4 (-1)).rowCount = 0 ∧
    (((((⟨[], 3⟩ : TableModel).insert_item 1 (-1)).insert_item 2 (-1)).insert_item 3
      (-1)).insert_item 4 (-1)).items = [] := by
  decide

/-- C9 (code bug): on a store of length 1, `index(1)` — a position outside
`[0, length)` — raises `IndexError` instead of returning an invalid handle:
the guard `0 <= row <= rowCount()` admits `row = length` and `items[row]`
then fails.  Positions beyond `length` and negative positions do return the
invalid handle, and in-range positions return a valid handle. -/
theorem lookup_at_length_raises :
    ListModel.index ⟨[7]⟩ 1 0 = (some PyErr.indexError, MIdx.invalid) ∧
    ListModel.index ⟨[7]⟩ 2 0 = (none, MIdx.invalid) ∧
    ListModel.index ⟨[7]⟩ (-1) 0 = (none, MIdx.invalid) ∧
    ListModel.index ⟨[7]⟩ 0 0 = (none, MIdx.valid 0 0 7) := by
  decide
